import Mathlib

/-!
Shallow embedding of the network glue code of a container-platform daemon
and its command-line client: network lookup and creation wrappers around an
external network-management library (daemon side), a stack-deployment
network reconciler (client side), and an ID-to-name resolver with a
memoization cache (client side).

Go slices and maps are embedded as Lean lists and association lists;
Go `(value, error)` pairs become `Except`; the mutation performed by the
external networking library (creating or deleting a network inside the
controller) is made explicit by returning the updated controller state.
-/

/-- A network as seen through the external networking library: the code under
verification only ever reads its `ID()`, `Name()` and (for driver listing)
`Type()` accessors. -/
structure Network where
  id : String
  name : String
  driver : String
  deriving DecidableEq, Repr

/-- Errors produced or passed through by the embedded code, mirroring
`libnetwork.ErrNoSuchNetwork`, `libnetwork.ErrInvalidID`,
`errors.NewRequestForbiddenError`, `libnetwork.NetworkNameError` and the
`fmt.Errorf` cases.  `nilController` stands for the run-time fault a Go nil
dereference of the controller would cause. -/
inductive NetErr where
  | noSuchNetwork (idName : String)
  | invalidID (partialID : String)
  | requestForbidden (msg : String)
  | networkNameError (name : String)
  | invalidSubnet (msg : String)
  | nilController
  deriving DecidableEq, Repr

/-- The state of the external `libnetwork` controller: its registered
networks (in walk order) and the daemon-level configuration read through
`c.Config().Daemon`. -/
structure Controller where
  networks : List Network
  defaultNetwork : String
  defaultDriver : String
  deriving DecidableEq, Repr

/-- The daemon: the embedded code only touches its `netController` field,
which is nil on platforms without the networking stack. -/
structure Daemon where
  netController : Option Controller
  deriving DecidableEq, Repr

/-- Modelled from the external libnetwork library: `c.NetworkByName` walks
the registered networks and returns the first whose name matches, or
`ErrNoSuchNetwork` when none does. -/
def Controller.NetworkByName (c : Controller) (name : String) : Except NetErr Network :=
  match c.networks.find? (fun nw => nw.name == name) with
  | some n => .ok n
  | none => .error (.noSuchNetwork name)

/-- Modelled from the external docker runconfig package: the reserved
pre-defined network names. -/
def IsPreDefinedNetwork (name : String) : Bool :=
  name == "bridge" || name == "host" || name == "none"

/-- `isNoSuchNetworkError` reports whether an error is a
`libnetwork.ErrNoSuchNetwork`. -/
def isNoSuchNetworkError : NetErr → Bool
  | .noSuchNetwork _ => true
  | _ => false

/-- `Daemon.GetNetworkByName` returns a network for a given network name,
substituting the configured default network for the empty name. -/
def Daemon.GetNetworkByName (daemon : Daemon) (name : String) : Except NetErr Network :=
  match daemon.netController with
  | none => .error (.noSuchNetwork name)
  | some c => c.NetworkByName (if name == "" then c.defaultNetwork else name)

/-- Structural helper for `hasPrefix`: does the second list start the
first? -/
def listHasPrefix : List Char → List Char → Bool
  | _, [] => true
  | [], _ :: _ => false
  | a :: as, b :: bs => a == b && listHasPrefix as bs

/-- Modelled from the Go standard library: `strings.HasPrefix s pre`
reports whether `s` starts with `pre`. -/
def hasPrefix (s pre : String) : Bool := listHasPrefix s.data pre.data

/-- `Daemon.GetNetworksByID` returns the list of networks whose ID starts
with the given partial ID (the empty list when the controller is nil). -/
def Daemon.GetNetworksByID (daemon : Daemon) (partialID : String) : List Network :=
  match daemon.netController with
  | none => []
  | some c => c.networks.filter (fun nw => hasPrefix nw.id partialID)

/-- `Daemon.GetNetworkByID` returns the network whose ID begins with the
given partial ID, failing when no network or more than one network
matches. -/
def Daemon.GetNetworkByID (daemon : Daemon) (partialID : String) : Except NetErr Network :=
  match daemon.GetNetworksByID partialID with
  | [] => .error (.noSuchNetwork partialID)
  | [n] => .ok n
  | _ :: _ :: _ => .error (.invalidID partialID)

/-- The decision `FindNetwork` makes once both lookups are available: take
the by-name result unless it is a no-such-network error, in which case fall
back to the by-ID result; any other name-lookup error is returned as is. -/
def findNetworkFromResults (nameResult idResult : Except NetErr Network) : Except NetErr Network :=
  match nameResult with
  | .ok n => .ok n
  | .error e => if isNoSuchNetworkError e then idResult else .error e

/-- `Daemon.FindNetwork` finds a network for a string that can be a network
name or a (partial) network ID. -/
def Daemon.FindNetwork (daemon : Daemon) (idName : String) : Except NetErr Network :=
  findNetworkFromResults (daemon.GetNetworkByName idName) (daemon.GetNetworkByID idName)

/-- One entry of `types.NetworkCreateRequest.IPAM.Config`. -/
structure IPAMConfig where
  Subnet : String
  IPRange : String
  Gateway : String
  AuxAddress : List (String × String)
  deriving DecidableEq, Repr

/-- One entry of the `libnetwork.IpamConf` lists built by `getIpamConfig`. -/
structure IpamConf where
  PreferredPool : String
  SubPool : String
  Gateway : String
  AuxAddresses : List (String × String)
  deriving DecidableEq, Repr

/-- The IPAM section of a network-creation request. -/
structure IPAM where
  Driver : String
  Config : List IPAMConfig
  Options : List (String × String)
  deriving DecidableEq, Repr

/-- `types.NetworkCreateRequest`, restricted to the fields the embedded
code reads. -/
structure NetworkCreateRequest where
  Name : String
  CheckDuplicate : Bool
  Driver : String
  IPAM : IPAM
  EnableIPv6 : Bool
  Internal : Bool
  Options : List (String × String)
  Labels : List (String × String)
  deriving DecidableEq, Repr

/-- `types.NetworkCreateResponse`: the new network's ID and an optional
warning string. -/
structure NetworkCreateResponse where
  ID : String
  Warning : String
  deriving DecidableEq, Repr

/-- Modelled from the Go standard library function `net.ParseCIDR` combined
with `ip.To4()`: `some true` when the subnet parses as an IPv4 CIDR,
`some false` when it parses as an (here simplified) IPv6 CIDR, `none` when
it does not parse.  No claim depends on the parsing details. -/
def parseCIDRIsV4 (s : String) : Option Bool :=
  match s.splitOn "/" with
  | [addr, mask] =>
    let isV4Addr :=
      let parts := addr.splitOn "."
      parts.length == 4 &&
        parts.all (fun p => decide (0 < p.length) && p.all Char.isDigit &&
          (p.toNat?.getD 256) ≤ 255)
    let maskNum := mask.toNat?.getD 1000
    if isV4Addr && decide (0 < mask.length) && mask.all Char.isDigit && maskNum ≤ 32 then
      some true
    else if addr.contains ':' && decide (0 < mask.length) && mask.all Char.isDigit &&
        maskNum ≤ 128 then
      some false
    else
      none
  | _ => none

/-- `getIpamConfig` turns the request's IPAM configuration into the v4 and
v6 `IpamConf` lists, failing on the first subnet that does not parse. -/
def getIpamConfig : List IPAMConfig → Except NetErr (List IpamConf × List IpamConf)
  | [] => .ok ([], [])
  | d :: rest =>
    let iCfg : IpamConf :=
      { PreferredPool := d.Subnet, SubPool := d.IPRange,
        Gateway := d.Gateway, AuxAddresses := d.AuxAddress }
    match parseCIDRIsV4 d.Subnet with
    | none => .error (.invalidSubnet ("Invalid subnet " ++ d.Subnet))
    | some isV4 =>
      match getIpamConfig rest with
      | .error e => .error e
      | .ok (v4, v6) =>
        if isV4 then .ok (iCfg :: v4, v6) else .ok (v4, iCfg :: v6)

/-- Modelled from the external libnetwork library: `c.NewNetwork` registers
a network with the given driver, name and ID (generating a fresh ID when
the given one is empty) and returns it together with the updated
controller. -/
def Controller.NewNetwork (c : Controller) (driver name id : String) : Network × Controller :=
  let newId := if id == "" then "libnet-" ++ name ++ "-" ++ toString c.networks.length else id
  let n : Network := { id := newId, name := name, driver := driver }
  (n, { c with networks := c.networks ++ [n] })

/-- The tail of `createNetwork` past the pre-defined-name and duplicate-name
checks: compute the warning, pick the driver, build the IPAM configuration
and create the network through the controller. -/
def createNetworkFinish (daemon : Daemon) (create : NetworkCreateRequest) (id : String)
    (nw : Option Network) : Except NetErr (NetworkCreateResponse × Daemon) :=
  let warning := match nw with
    | some nw => "Network with name " ++ nw.name ++ " (id : " ++ nw.id ++ ") already exists"
    | none => ""
  match daemon.netController with
  | none => .error .nilController
  | some c =>
    let driver := if create.Driver == "" then c.defaultDriver else create.Driver
    match getIpamConfig create.IPAM.Config with
    | .error e => .error e
    | .ok _ =>
      let nc := c.NewNetwork driver create.Name id
      .ok ({ ID := nc.1.id, Warning := warning },
           { daemon with netController := some nc.2 })

/-- `Daemon.createNetwork`: reject pre-defined names outside agent mode,
look the name up, reject or warn on duplicates, then create the network. -/
def Daemon.createNetwork (daemon : Daemon) (create : NetworkCreateRequest) (id : String)
    (agent : Bool) : Except NetErr (NetworkCreateResponse × Daemon) :=
  if IsPreDefinedNetwork create.Name && !agent then
    .error (.requestForbidden (create.Name ++ " is a pre-defined network and cannot be created"))
  else
    match daemon.GetNetworkByName create.Name with
    | .error e =>
      if isNoSuchNetworkError e then createNetworkFinish daemon create id none
      else .error e
    | .ok nw =>
      if create.CheckDuplicate then .error (.networkNameError create.Name)
      else createNetworkFinish daemon create id (some nw)

/-- `Daemon.CreateNetwork`: the public entry point, with an empty ID and
agent mode off. -/
def Daemon.CreateNetwork (daemon : Daemon) (create : NetworkCreateRequest) :
    Except NetErr (NetworkCreateResponse × Daemon) :=
  daemon.createNetwork create "" false

/-- `Daemon.deleteNetwork`: find the network, refuse to remove a
pre-defined one outside dynamic mode, otherwise delete it through the
external library (embedded as removal from the controller's list). -/
def Daemon.deleteNetwork (daemon : Daemon) (networkID : String) (dynamic : Bool) :
    Except NetErr Daemon :=
  match daemon.FindNetwork networkID with
  | .error e => .error e
  | .ok nw =>
    if IsPreDefinedNetwork nw.name && !dynamic then
      .error (.requestForbidden (nw.name ++ " is a pre-defined network and cannot be removed"))
    else
      match daemon.netController with
      | none => .error .nilController
      | some c =>
        .ok { daemon with
              netController := some { c with networks := c.networks.filter (fun n => n.id != nw.id) } }

/-- `Daemon.DeleteNetwork` destroys a network unless it is pre-defined. -/
def Daemon.DeleteNetwork (daemon : Daemon) (networkID : String) : Except NetErr Daemon :=
  daemon.deleteNetwork networkID false

/-- `Daemon.DeleteManagedNetwork` deletes an agent network. -/
def Daemon.DeleteManagedNetwork (daemon : Daemon) (networkID : String) : Except NetErr Daemon :=
  daemon.deleteNetwork networkID true

/-- Modelled from the spec: the body of `IDResolver.Resolve` that queries
the remote manager to turn an identifier into a human name (a type switch
on the `t` argument followed by an inspect call on the API client) is
absent from the provided source fragment; the spec describes it as looking
up a human name for an opaque identifier, so it is embedded as an abstract
total function from identifiers to names. -/
abbrev RemoteLookup := String → String

/-- `IDResolver` provides ID to Name resolution; `cache` memoizes results
for the lifetime of one command invocation. -/
structure IDResolver where
  noResolve : Bool
  cache : List (String × String)
  deriving DecidableEq, Repr

/-- `IDResolver.New` creates a new resolver with an empty cache. -/
def IDResolver.New (noResolve : Bool) : IDResolver :=
  { noResolve := noResolve, cache := [] }

/-- `IDResolver.Resolve` resolves an ID to a Name: the raw ID when
resolution is disabled, the cached name on a hit, otherwise one remote
query whose result is stored in the cache.  The returned triple is the
resolved name, the updated resolver state, and the number of remote
queries issued by this call; the `Except` layer mirrors the Go error
return, which is nil on every path of the embedded code. -/
def IDResolver.Resolve (r : IDResolver) (lookup : RemoteLookup) (id : String) :
    Except String (String × IDResolver × Nat) :=
  if r.noResolve then .ok (id, r, 0)
  else
    match r.cache.lookup id with
    | some name => .ok (name, r, 0)
    | none =>
      let name := lookup id
      .ok (name, { r with cache := (id, name) :: r.cache }, 1)

/-- One service of a Distributed Application Bundle, restricted to the
field the deploy code reads. -/
structure Service where
  Networks : List String
  deriving DecidableEq, Repr

/-- `types.NetworkResource`, restricted to the fields the deploy code
reads. -/
structure NetworkResource where
  Name : String
  Id : String
  deriving DecidableEq, Repr

/-- `getUniqueNetworkNames` collects the set of network names referenced by
the bundle's services (a Go map keyed by service name; the embedding keeps
the key so the iteration is over the same pairs). -/
def getUniqueNetworkNames (services : List (String × Service)) : List String :=
  services.foldl
    (fun networkSet s =>
      s.2.Networks.foldl (fun acc network => acc.insert network) networkSet)
    []

/-- `updateNetworks`, embedded as the sequence of names passed to
`NetworkCreate`: the existing networks returned by the stack-filtered
listing are keyed by name, and each referenced name is namespaced and
created only when absent from that map.  (`ns` stands for the Go
`namespace` parameter, a reserved word in Lean.) -/
def updateNetworks (existingNetworks : List NetworkResource) (networks : List String)
    (ns : String) : List String :=
  let existingNetworkMap := existingNetworks.map (fun network => (network.Name, network))
  networks.filterMap (fun internalName =>
    let name := ns ++ "_" ++ internalName
    if (existingNetworkMap.lookup name).isSome then none
    else some name)

/-- A small concrete controller used by the closed witness statements:
one pre-defined network and two user networks sharing the ID prefix
`ab`. -/
def ctrlDemo : Controller :=
  { networks :=
      [{ id := "aa11", name := "bridge", driver := "bridge" },
       { id := "ab22", name := "web", driver := "overlay" },
       { id := "ab33", name := "db", driver := "overlay" }],
    defaultNetwork := "bridge", defaultDriver := "bridge" }

/-- A concrete daemon wrapping `ctrlDemo`. -/
def dDemo : Daemon := { netController := some ctrlDemo }

/-- The pre-defined network registered in `ctrlDemo`. -/
def nwBridgeDemo : Network := { id := "aa11", name := "bridge", driver := "bridge" }

/-- The user network `web` registered in `ctrlDemo`. -/
def nwWebDemo : Network := { id := "ab22", name := "web", driver := "overlay" }

/-- An empty IPAM section, as sent by clients that configure nothing. -/
def emptyIPAM : IPAM := { Driver := "default", Config := [], Options := [] }

/-- A creation request for the pre-defined name `bridge` with duplicate
checking on. -/
def reqBridgeDup : NetworkCreateRequest :=
  { Name := "bridge", CheckDuplicate := true, Driver := "", IPAM := emptyIPAM,
    EnableIPv6 := false, Internal := false, Options := [], Labels := [] }

/-- A creation request for the already-existing user name `web` with
duplicate checking on. -/
def reqWebDup : NetworkCreateRequest := { reqBridgeDup with Name := "web" }

/-- The same request with duplicate checking off. -/
def reqWebWarn : NetworkCreateRequest := { reqWebDup with CheckDuplicate := false }

/-- A concrete remote lookup for the resolver witnesses. -/
def lookupDemo : RemoteLookup := fun _ => "alice"

/-- The resolver state after one enabled `Resolve` of `id1` through
`lookupDemo`. -/
def resolverAfterDemo : IDResolver := { noResolve := false, cache := [("id1", "alice")] }

/-- C4: a partial ID that is a prefix of no known network ID makes
`GetNetworkByID` fail with a no-such-network error and return no
network. -/
theorem getNetworkByID_zero_matches (daemon : Daemon) (partialID : String)
    (h : daemon.GetNetworksByID partialID = []) :
    daemon.GetNetworkByID partialID = .error (.noSuchNetwork partialID) := by
  unfold Daemon.GetNetworkByID
  rw [h]

/-- Witness for `getNetworkByID_zero_matches` at the concrete daemon
`dDemo` and the unmatched prefix `zz`. -/
theorem getNetworkByID_zero_matches_witness :
    Daemon.GetNetworksByID dDemo "zz" = [] ∧
    Daemon.GetNetworkByID dDemo "zz" = .error (.noSuchNetwork "zz") :=
  ⟨rfl, getNetworkByID_zero_matches dDemo "zz" rfl⟩

/-- C3: a partial ID that is a prefix of exactly one known network ID
makes `GetNetworkByID` return that network without error. -/
theorem getNetworkByID_unique_match (daemon : Daemon) (partialID : String) (n : Network)
    (h : daemon.GetNetworksByID partialID = [n]) :
    daemon.GetNetworkByID partialID = .ok n := by
  unfold Daemon.GetNetworkByID
  rw [h]

/-- Witness for `getNetworkByID_unique_match`: in `dDemo` only the `web`
network's ID starts with `ab2`. -/
theorem getNetworkByID_unique_match_witness :
    Daemon.GetNetworksByID dDemo "ab2" = [nwWebDemo] ∧
    Daemon.GetNetworkByID dDemo "ab2" = .ok nwWebDemo :=
  ⟨rfl, getNetworkByID_unique_match dDemo "ab2" nwWebDemo rfl⟩

/-- C5: a partial ID that is a prefix of more than one known network ID
makes `GetNetworkByID` fail with an invalid-identifier error and return no
network. -/
theorem getNetworkByID_ambiguous (daemon : Daemon) (partialID : String)
    (h : 2 ≤ (daemon.GetNetworksByID partialID).length) :
    daemon.GetNetworkByID partialID = .error (.invalidID partialID) := by
  unfold Daemon.GetNetworkByID
  cases hl : daemon.GetNetworksByID partialID with
  | nil => rw [hl] at h; simp at h
  | cons a t =>
    cases t with
    | nil => rw [hl] at h; simp at h
    | cons b t2 => rfl

/-- Witness for `getNetworkByID_ambiguous`: in `dDemo` the prefix `ab`
matches both `web` and `db`. -/
theorem getNetworkByID_ambiguous_witness :
    2 ≤ (Daemon.GetNetworksByID dDemo "ab").length ∧
    Daemon.GetNetworkByID dDemo "ab" = .error (.invalidID "ab") :=
  ⟨by decide, getNetworkByID_ambiguous dDemo "ab" (by decide)⟩

/-- C10: `FindNetwork` is exactly the combination of the by-name and by-ID
lookups in which an exact-name hit wins regardless of the by-ID result,
a no-such-network name error falls back to the by-ID result, and any other
name-lookup error is returned unchanged. -/
theorem findNetwork_name_precedence (daemon : Daemon) (idName : String) :
    daemon.FindNetwork idName =
      findNetworkFromResults (daemon.GetNetworkByName idName) (daemon.GetNetworkByID idName) ∧
    (∀ n idResult, findNetworkFromResults (.ok n) idResult = .ok n) ∧
    (∀ e idResult, isNoSuchNetworkError e = true →
       findNetworkFromResults (.error e) idResult = idResult) ∧
    (∀ e idResult, isNoSuchNetworkError e = false →
       findNetworkFromResults (.error e) idResult = .error e) := by
  refine ⟨rfl, fun n idResult => rfl, ?_, ?_⟩
  · intro e idResult he
    simp [findNetworkFromResults, he]
  · intro e idResult he
    simp [findNetworkFromResults, he]

/-- Witness for `findNetwork_name_precedence` at `dDemo` and the name
`web`, whose exact-name match wins over any by-ID result. -/
theorem findNetwork_name_precedence_witness :
    Daemon.FindNetwork dDemo "web" =
      findNetworkFromResults (Daemon.GetNetworkByName dDemo "web")
        (Daemon.GetNetworkByID dDemo "web") ∧
    findNetworkFromResults (.ok nwWebDemo) (.error (.noSuchNetwork "web")) = .ok nwWebDemo :=
  ⟨(findNetwork_name_precedence dDemo "web").1,
   (findNetwork_name_precedence dDemo "web").2.1 nwWebDemo (.error (.noSuchNetwork "web"))⟩

/-- C6: mutating a reserved pre-defined network is forbidden: creation in
non-agent mode returns a forbidden-request error (so no network is
created), and deletion in non-dynamic mode of a found pre-defined network
returns a forbidden-request error (so the network stays in place). -/
theorem predefined_network_mutation_forbidden (daemon : Daemon) :
    (∀ create id, IsPreDefinedNetwork create.Name = true →
       daemon.createNetwork create id false =
         .error (.requestForbidden
           (create.Name ++ " is a pre-defined network and cannot be created"))) ∧
    (∀ networkID nw, daemon.FindNetwork networkID = .ok nw →
       IsPreDefinedNetwork nw.name = true →
       daemon.deleteNetwork networkID false =
         .error (.requestForbidden
           (nw.name ++ " is a pre-defined network and cannot be removed"))) := by
  constructor
  · intro create id hpre
    unfold Daemon.createNetwork
    simp [hpre]
  · intro networkID nw hfind hpre
    unfold Daemon.deleteNetwork
    rw [hfind]
    simp [hpre]

/-- Witness for `predefined_network_mutation_forbidden` at `dDemo`: both
creating and deleting the pre-defined `bridge` network are rejected. -/
theorem predefined_network_mutation_forbidden_witness :
    Daemon.createNetwork dDemo reqBridgeDup "" false =
      .error (.requestForbidden "bridge is a pre-defined network and cannot be created") ∧
    Daemon.deleteNetwork dDemo "bridge" false =
      .error (.requestForbidden "bridge is a pre-defined network and cannot be removed") :=
  ⟨(predefined_network_mutation_forbidden dDemo).1 reqBridgeDup "" rfl,
   (predefined_network_mutation_forbidden dDemo).2 "bridge" nwBridgeDemo rfl rfl⟩

/-- C8: with the no-resolve flag set, `Resolve` returns the input ID
unchanged, with a nil error, no remote query and an unchanged cache. -/
theorem resolve_disabled (r : IDResolver) (lookup : RemoteLookup) (id : String)
    (h : r.noResolve = true) :
    r.Resolve lookup id = .ok (id, r, 0) := by
  unfold IDResolver.Resolve
  rw [h]
  simp

/-- Witness for `resolve_disabled` on a fresh resolver built with the
no-resolve flag. -/
theorem resolve_disabled_witness :
    (IDResolver.New true).noResolve = true ∧
    (IDResolver.New true).Resolve lookupDemo "task1" = .ok ("task1", IDResolver.New true, 0) :=
  ⟨rfl, resolve_disabled (IDResolver.New true) lookupDemo "task1" rfl⟩

/-- C1: with resolution enabled, a successful `Resolve` leaves the name
stored in the cache under the ID, and a second `Resolve` of the same ID
returns that cached name with no further remote query and an unchanged
resolver state. -/
theorem resolve_caches (r : IDResolver) (lookup : RemoteLookup) (id : String)
    (h : r.noResolve = false) :
    ∀ name r' q, r.Resolve lookup id = .ok (name, r', q) →
      r'.cache.lookup id = some name ∧ r'.Resolve lookup id = .ok (name, r', 0) := by
  intro name r' q hres
  unfold IDResolver.Resolve at hres
  rw [h] at hres
  simp only [Bool.false_eq_true, if_false] at hres
  cases hc : r.cache.lookup id with
  | some cachedName =>
    rw [hc] at hres
    simp only [Except.ok.injEq, Prod.mk.injEq] at hres
    obtain ⟨h1, h2, h3⟩ := hres
    subst h1
    subst h2
    refine ⟨hc, ?_⟩
    unfold IDResolver.Resolve
    rw [h, hc]
    simp
  | none =>
    rw [hc] at hres
    simp only [Except.ok.injEq, Prod.mk.injEq] at hres
    obtain ⟨h1, h2, h3⟩ := hres
    subst h1
    subst h2
    constructor
    · simp [List.lookup]
    · unfold IDResolver.Resolve
      simp [h, List.lookup]

/-- Witness for `resolve_caches`: resolving `id1` on a fresh enabled
resolver stores `alice`, and the second call returns it from the cache. -/
theorem resolve_caches_witness :
    (IDResolver.New false).Resolve lookupDemo "id1" = .ok ("alice", resolverAfterDemo, 1) ∧
    resolverAfterDemo.cache.lookup "id1" = some "alice" ∧
    resolverAfterDemo.Resolve lookupDemo "id1" = .ok ("alice", resolverAfterDemo, 0) :=
  ⟨rfl,
   resolve_caches (IDResolver.New false) lookupDemo "id1" rfl "alice" resolverAfterDemo 1 rfl⟩

/-- Folding `List.insert` over a list collects exactly the old and new
members. -/
theorem mem_foldl_insert (l acc : List String) (a : String) :
    a ∈ l.foldl (fun acc network => acc.insert network) acc ↔ a ∈ acc ∨ a ∈ l := by
  induction l generalizing acc with
  | nil => simp
  | cons x t ih =>
    simp only [List.foldl_cons, ih, List.mem_insert_iff, List.mem_cons]
    tauto

/-- Folding `List.insert` over a list preserves distinctness. -/
theorem nodup_foldl_insert (l acc : List String) (h : acc.Nodup) :
    (l.foldl (fun acc network => acc.insert network) acc).Nodup := by
  induction l generalizing acc with
  | nil => simpa
  | cons x t ih => exact ih _ h.insert

/-- The double fold of `getUniqueNetworkNames` collects exactly the old
members and the names referenced by some service. -/
theorem mem_getUniqueNetworkNames_aux (services : List (String × Service)) (acc : List String)
    (a : String) :
    a ∈ services.foldl
        (fun networkSet s => s.2.Networks.foldl (fun acc network => acc.insert network) networkSet)
        acc ↔
      a ∈ acc ∨ ∃ s, s ∈ services ∧ a ∈ s.2.Networks := by
  induction services generalizing acc with
  | nil => simp
  | cons x t ih =>
    rw [List.foldl_cons, ih, mem_foldl_insert]
    constructor
    · rintro ((ha | hx) | ⟨s, hs, ha⟩)
      · exact Or.inl ha
      · exact Or.inr ⟨x, List.mem_cons_self x t, hx⟩
      · exact Or.inr ⟨s, List.mem_cons_of_mem x hs, ha⟩
    · rintro (ha | ⟨s, hs, ha⟩)
      · exact Or.inl (Or.inl ha)
      · rcases List.mem_cons.mp hs with rfl | hs
        · exact Or.inl (Or.inr ha)
        · exact Or.inr ⟨s, hs, ha⟩

/-- The double fold of `getUniqueNetworkNames` preserves distinctness. -/
theorem nodup_getUniqueNetworkNames_aux (services : List (String × Service)) (acc : List String)
    (h : acc.Nodup) :
    (services.foldl
        (fun networkSet s => s.2.Networks.foldl (fun acc network => acc.insert network) networkSet)
        acc).Nodup := by
  induction services generalizing acc with
  | nil => simpa
  | cons x t ih => exact ih _ (nodup_foldl_insert _ _ h)

/-- C9: `getUniqueNetworkNames` returns exactly the set of network names
referenced by the bundle's services: a name is in the result exactly when
some service lists it, and the result has no duplicates. -/
theorem getUniqueNetworkNames_exact (services : List (String × Service)) :
    (∀ name, name ∈ getUniqueNetworkNames services ↔
       ∃ s, s ∈ services ∧ name ∈ s.2.Networks) ∧
    (getUniqueNetworkNames services).Nodup := by
  constructor
  · intro name
    unfold getUniqueNetworkNames
    rw [mem_getUniqueNetworkNames_aux]
    simp
  · unfold getUniqueNetworkNames
    exact nodup_getUniqueNetworkNames_aux services [] List.nodup_nil

/-- A name is a key of the map built by `updateNetworks` exactly when some
listed network resource carries it. -/
theorem lookup_networkMap_isSome (l : List NetworkResource) (a : String) :
    (List.lookup a (l.map (fun network => (network.Name, network)))).isSome = true ↔
      ∃ network, network ∈ l ∧ network.Name = a := by
  induction l with
  | nil => simp [List.lookup]
  | cons x t ih =>
    by_cases hx : a = x.Name
    · subst hx
      simp [List.lookup]
    · have hbeq : (a == x.Name) = false := by
        simp [hx]
      simp only [List.map_cons, List.lookup, hbeq, ih, List.mem_cons]
      constructor
      · rintro ⟨network, hnet, hname⟩
        exact ⟨network, Or.inr hnet, hname⟩
      · rintro ⟨network, hnet | hnet, hname⟩
        · exact absurd (hnet ▸ hname) (fun hh => hx hh.symm)
        · exact ⟨network, hnet, hname⟩

/-- C2: `updateNetworks` calls `NetworkCreate` exactly for the namespaced
forms of the referenced names that are absent from the listing of the
stack's existing networks; a name already present in that listing is never
re-created. -/
theorem updateNetworks_exactly_missing (existingNetworks : List NetworkResource)
    (networks : List String) (ns : String) :
    ∀ name, name ∈ updateNetworks existingNetworks networks ns ↔
      ∃ internalName, internalName ∈ networks ∧ name = ns ++ "_" ++ internalName ∧
        ∀ network, network ∈ existingNetworks → network.Name ≠ name := by
  intro name
  unfold updateNetworks
  rw [List.mem_filterMap]
  constructor
  · rintro ⟨internalName, hmem, hf⟩
    simp only at hf
    split at hf
    · cases hf
    · next hex =>
      injection hf with hf
      subst hf
      refine ⟨internalName, hmem, rfl, ?_⟩
      intro network hnet hname
      exact hex ((lookup_networkMap_isSome _ _).mpr ⟨network, hnet, hname⟩)
  · rintro ⟨internalName, hmem, rfl, habs⟩
    refine ⟨internalName, hmem, ?_⟩
    simp only
    rw [if_neg]
    intro hex
    rcases (lookup_networkMap_isSome _ _).mp hex with ⟨network, hnet, hname⟩
    exact habs network hnet hname

/-- C7 counterexample: the name `bridge` belongs to an existing network of
`dDemo` and `reqBridgeDup` opts into duplicate checking, yet
`createNetwork` in non-agent mode does not fail with a network-name error
there (the pre-defined-name check fires first with a forbidden-request
error). -/
theorem createNetwork_duplicate_counterexample :
    Daemon.GetNetworkByName dDemo "bridge" = .ok nwBridgeDemo ∧
    reqBridgeDup.CheckDuplicate = true ∧
    Daemon.createNetwork dDemo reqBridgeDup "" false ≠
      .error (.networkNameError "bridge") := by
  refine ⟨rfl, rfl, ?_⟩
  have h : Daemon.createNetwork dDemo reqBridgeDup "" false =
      .error (.requestForbidden "bridge is a pre-defined network and cannot be created") := rfl
  rw [h]
  simp

/-- C7 (amended): for a creation request whose name belongs to an existing
network and which is not rejected by the earlier pre-defined-name check
(the name is not a reserved pre-defined one, or the call is in agent
mode): with `CheckDuplicate` set, `createNetwork` fails with a
network-name error and creates nothing; without it, creation proceeds and
the successful response carries a warning naming the existing network
instead of an error. -/
theorem createNetwork_duplicate_name (daemon : Daemon) (create : NetworkCreateRequest)
    (id : String) (agent : Bool) (nw : Network)
    (hpre : IsPreDefinedNetwork create.Name = true → agent = true)
    (hdup : daemon.GetNetworkByName create.Name = .ok nw) :
    (create.CheckDuplicate = true →
       daemon.createNetwork create id agent = .error (.networkNameError create.Name)) ∧
    (create.CheckDuplicate = false →
       ∀ conf, getIpamConfig create.IPAM.Config = .ok conf →
         ∃ resp daemon', daemon.createNetwork create id agent = .ok (resp, daemon') ∧
           resp.Warning =
             "Network with name " ++ nw.name ++ " (id : " ++ nw.id ++ ") already exists") := by
  have hcond : (IsPreDefinedNetwork create.Name && !agent) = false := by
    cases hp : IsPreDefinedNetwork create.Name
    · simp
    · simp [hpre hp]
  constructor
  · intro hflag
    unfold Daemon.createNetwork
    rw [hcond, hdup]
    simp [hflag]
  · intro hflag conf hipam
    obtain ⟨c, hc⟩ : ∃ c, daemon.netController = some c := by
      unfold Daemon.GetNetworkByName at hdup
      cases hctl : daemon.netController with
      | none => rw [hctl] at hdup; cases hdup
      | some c => exact ⟨c, rfl⟩
    unfold Daemon.createNetwork
    rw [hcond, hdup]
    simp only [Bool.false_eq_true, if_false, hflag]
    unfold createNetworkFinish
    rw [hc, hipam]
    exact ⟨_, _, rfl, rfl⟩

/-- Witness for `createNetwork_duplicate_name`: in `dDemo` the user
network `web` exists, so creating `web` with duplicate checking on fails
with a network-name error, and without it succeeds with a warning naming
the existing network. -/
theorem createNetwork_duplicate_name_witness :
    Daemon.GetNetworkByName dDemo "web" = .ok nwWebDemo ∧
    Daemon.createNetwork dDemo reqWebDup "" false = .error (.networkNameError "web") ∧
    (∃ resp daemon', Daemon.createNetwork dDemo reqWebWarn "" false = .ok (resp, daemon') ∧
       resp.Warning = "Network with name web (id : ab22) already exists") :=
  ⟨rfl,
   (createNetwork_duplicate_name dDemo reqWebDup "" false nwWebDemo (by decide) rfl).1 rfl,
   (createNetwork_duplicate_name dDemo reqWebWarn "" false nwWebDemo (by decide) rfl).2 rfl
     ([], []) rfl⟩
